import Mathlib

/-
Verification of the PayQuick earned-wage-access client (src/src/App.tsx)
against its natural-language specification.

The business logic of the source is embedded shallowly:
JavaScript numbers are modelled as rationals (ℚ), epoch timestamps in
milliseconds as integers, React state updates as explicit state-passing
functions, and `addNotification` side effects as values returned in an
explicit list of emitted notifications.
-/

namespace PayQuick

/-- The `preferredPaymentMethod` union type of App.tsx line 16. -/
inductive PaymentMethod
  | instant
  | eft
  | ewallet
deriving DecidableEq, Repr

/-- The `feeStructure` record embedded in `Employer` (App.tsx lines 26-30). -/
structure FeeStructure where
  flat : ℚ
  percentage : ℚ
  max : ℚ
deriving DecidableEq, Repr

/-- The `Employer` interface (App.tsx lines 20-32); the optional `logo` field
is presentation-only and omitted. -/
structure Employer where
  id : String
  code : String
  name : String
  payrollDay : ℕ
  advanceCap : ℚ
  feeStructure : FeeStructure
deriving DecidableEq, Repr

/-- The `User` interface (App.tsx lines 6-18). -/
structure User where
  id : String
  name : String
  phone : String
  employerId : String
  email : String
  hourlyRate : ℚ
  startDate : String
  isFullTime : Bool
  biometricEnabled : Bool
  preferredPaymentMethod : PaymentMethod
  wellnessScore : Option ℕ
deriving DecidableEq, Repr

/-- The `Voucher` interface (App.tsx lines 46-56); `image` omitted. -/
structure Voucher where
  id : String
  provider : String
  name : String
  amount : ℚ
  price : ℚ
  discount : ℚ
  stock : ℕ
deriving DecidableEq, Repr

/-- Mock employer `TECH001` (App.tsx lines 252-260). -/
def mockTech : Employer :=
  { id := "1", code := "TECH001", name := "TechCorp SA", payrollDay := 25,
    advanceCap := 0.25, feeStructure := { flat := 25, percentage := 0.01, max := 60 } }

/-- Mock user Thabo (App.tsx lines 282-294): hourly rate 150, biometric enabled. -/
def thabo : User :=
  { id := "1", name := "Thabo Mbeki", phone := "0821234567", employerId := "1",
    email := "thabo@example.com", hourlyRate := 150, startDate := "2023-01-15",
    isFullTime := true, biometricEnabled := true,
    preferredPaymentMethod := .instant, wellnessScore := some 750 }

/-- Mock user Sarah (App.tsx lines 295-307): biometric disabled. -/
def sarah : User :=
  { id := "2", name := "Sarah van der Merwe", phone := "0827654321", employerId := "2",
    email := "sarah@example.com", hourlyRate := 120, startDate := "2023-03-01",
    isFullTime := true, biometricEnabled := false,
    preferredPaymentMethod := .eft, wellnessScore := some 680 }

/-- Mock voucher `R50 Airtime` (App.tsx lines 340-350). -/
def mockR50Airtime : Voucher :=
  { id := "1", provider := "Vodacom", name := "R50 Airtime",
    amount := 50, price := 48, discount := 4, stock := 100 }

/-- The `calculateFee` helper of the `AdvanceRequest` component
(App.tsx lines 793-798): returns 0 when the employer lookup failed,
otherwise `Math.min(flat + amt * percentage, max)`. -/
def calculateFee (employer : Option Employer) (amt : ℚ) : ℚ :=
  match employer with
  | none => 0
  | some e => min (e.feeStructure.flat + amt * e.feeStructure.percentage) e.feeStructure.max

/-- Milliseconds per day, the divisor `1000 * 60 * 60 * 24` of App.tsx line 692. -/
def msPerDay : ℤ := 1000 * 60 * 60 * 24

/-- The `workingDays` value of `calculateEarnedToDate` (App.tsx line 692):
`Math.floor((today - startOfMonth) / msPerDay)`; JavaScript `Math.floor` of a
real quotient is floor division, `Int.fdiv`. -/
def workingDays (startOfMonth now : ℤ) : ℤ :=
  Int.fdiv (now - startOfMonth) msPerDay

/-- The `calculateEarnedToDate` helper of the `Dashboard` component
(App.tsx lines 688-694). `startOfMonth` is the epoch time of the first
calendar day of the month containing `now`; both are taken as parameters
since the embedding has no calendar. Returns 0 when no user is logged in. -/
def calculateEarnedToDate (user : Option User) (startOfMonth now : ℤ) : ℚ :=
  match user with
  | none => 0
  | some u => (workingDays startOfMonth now : ℚ) * 8 * u.hourlyRate

/-- The JavaScript expression `employer?.advanceCap || 0.25` of App.tsx
line 697. `||` tests falsiness, so an `advanceCap` of 0 also yields the
0.25 default, not 0. -/
def advanceCapOrDefault (employer : Option Employer) : ℚ :=
  match employer with
  | none => 0.25
  | some e => if e.advanceCap = 0 then 0.25 else e.advanceCap

/-- The `available` amount of the `Dashboard` component (App.tsx line 697):
`earned * (employer?.advanceCap || 0.25)`. -/
def available (user : Option User) (employer : Option Employer) (startOfMonth now : ℤ) : ℚ :=
  calculateEarnedToDate user startOfMonth now * advanceCapOrDefault employer

example : calculateFee (some mockTech) 500 = 30 := by
  norm_num [calculateFee, mockTech]

/-- The `type` union of the `Notification` interface (App.tsx line 66). -/
inductive NotifType
  | success
  | error
  | info
  | warning
deriving DecidableEq, Repr

/-- Local state of the `AdvanceRequest` component (App.tsx lines 788-790):
the `amount` input string is modelled by its parsed value, `none` standing
for the empty string (the input is numeric, so a non-empty value parses). -/
structure AdvanceState where
  amount : Option ℚ
  paymentMethod : PaymentMethod
  showBiometric : Bool
deriving DecidableEq, Repr

/-- A notification emitted by `processAdvance` via `addNotification`
(App.tsx line 815), recording its type and the literal amount and fee
interpolated into the message. -/
structure Emitted where
  ntype : NotifType
  amount : ℚ
  fee : ℚ
deriving DecidableEq, Repr

/-- The `disabled` condition of the Request Advance button (App.tsx line 912):
`!amount || parseFloat(amount) <= 0`. -/
def submitDisabled (s : AdvanceState) : Bool :=
  match s.amount with
  | none => true
  | some a => decide (a ≤ 0)

/-- The `processAdvance` handler (App.tsx lines 812-817): computes the fee on
the parsed amount `a` (`a` is the value of `parseFloat(amount)`; the submit
guard of line 912 ensures the input is non-empty when this runs), emits a
success notification carrying amount and fee, and clears the amount input. -/
def processAdvance (employer : Option Employer) (a : ℚ) (s : AdvanceState) :
    AdvanceState × List Emitted :=
  ({ s with amount := none }, [⟨NotifType.success, a, calculateFee employer a⟩])

/-- The JavaScript condition `user?.biometricEnabled` of App.tsx line 805. -/
def biometricGate (user : Option User) : Bool :=
  match user with
  | none => false
  | some u => u.biometricEnabled

/-- The `handleSubmit` handler (App.tsx lines 804-810): when the user has
biometrics enabled it shows the step-up modal (`setShowBiometric(true)`) and
emits nothing; otherwise it runs `processAdvance` directly. -/
def handleSubmit (user : Option User) (employer : Option Employer) (a : ℚ)
    (s : AdvanceState) : AdvanceState × List Emitted :=
  if biometricGate user then ({ s with showBiometric := true }, [])
  else processAdvance employer a s

/-- The `onSuccess` callback passed to `BiometricAuth` by `AdvanceRequest`
(App.tsx lines 920-923): hides the modal, then runs `processAdvance`. -/
def biometricOnSuccess (employer : Option Employer) (a : ℚ) (s : AdvanceState) :
    AdvanceState × List Emitted :=
  processAdvance employer a { s with showBiometric := false }

/-- The `onCancel` callback passed to `BiometricAuth` by `AdvanceRequest`
(App.tsx line 924): `() => setShowBiometric(false)` — it only hides the
modal; no notification is emitted and `processAdvance` is not called. -/
def biometricOnCancel (s : AdvanceState) : AdvanceState × List Emitted :=
  ({ s with showBiometric := false }, [])

/-- Outcomes of the step-up authentication factor. `success` and `cancelled`
are the two continuations `BiometricAuth` can invoke (App.tsx lines 126-156);
`failed` is the step-up-rejection branch named by the specification, carried
here so its unreachability can be stated. -/
inductive StepUpOutcome
  | success
  | cancelled
  | failed
deriving DecidableEq, Repr

/-- The two user actions available inside the `BiometricAuth` modal:
the Scan Fingerprint button (App.tsx line 148) and the Cancel button
(App.tsx line 151). -/
inductive BioAction
  | pressScan
  | pressCancel
deriving DecidableEq, Repr

/-- Which continuation each modal action resolves to. `handleBiometric`
(App.tsx lines 129-136) schedules a 2000 ms callback that unconditionally
calls `onSuccess`; the Cancel button calls `onCancel`. -/
def bioOutcome : BioAction → StepUpOutcome
  | .pressScan => .success
  | .pressCancel => .cancelled

/-- The `handlePurchase` handler of `VoucherMarketplace` (App.tsx
lines 945-947): it only emits a success notification naming the voucher;
it reads no stock, mutates no stock and records no transaction. -/
def handlePurchase (v : Voucher) : List (NotifType × String) :=
  [(NotifType.success, v.name)]

/-- The `Notification` interface (App.tsx lines 64-70). The source id is
`Date.now().toString()` (line 455); it is modelled by the numeric value of
that string, i.e. the creation timestamp itself. -/
structure Notification where
  id : ℕ
  ntype : NotifType
  message : String
  timestamp : ℕ
  read : Bool
deriving DecidableEq, Repr

/-- The notification object built by `addNotification` at time `now`
(App.tsx lines 454-460): id and timestamp are both `Date.now()`. -/
def mkNotification (now : ℕ) (t : NotifType) (msg : String) : Notification :=
  { id := now, ntype := t, message := msg, timestamp := now, read := false }

/-- The queue update of `addNotification` (App.tsx line 461):
`setNotifications(prev => [...prev, notif])`. -/
def addNotificationAt (now : ℕ) (t : NotifType) (msg : String)
    (q : List Notification) : List Notification :=
  q ++ [mkNotification now t msg]

/-- The delay of the removal timer scheduled by `addNotification`
(App.tsx lines 462-464): 5000 ms. -/
def removalDelayMs : ℕ := 5000

/-- One notification-display time unit of the specification, 1000 ms,
so that the 5000 ms source delay is 5 units. -/
def msPerUnit : ℕ := 1000

/-- When the timer scheduled for notification `n` fires. -/
def scheduledRemovalTime (n : Notification) : ℕ :=
  n.timestamp + removalDelayMs

/-- The `removeNotification` handler (App.tsx lines 467-469):
`prev.filter(n => n.id !== id)`. -/
def removeNotification (id : ℕ) (q : List Notification) : List Notification :=
  q.filter (fun n => decide (n.id ≠ id))

/-- Ids of the notifications in `q` whose scheduled removal timer is due at
time `t`. -/
def dueIds (t : ℕ) (q : List Notification) : List ℕ :=
  (q.filter (fun n => decide (scheduledRemovalTime n ≤ t))).map (fun n => n.id)

/-- The queue observed at time `t`: every removal timer due by `t` has fired
its `removeNotification` call. -/
def fireDue (t : ℕ) (q : List Notification) : List Notification :=
  (dueIds t q).foldl (fun acc id => removeNotification id acc) q

/-- Whether a notification with the given id is in the queue at time `t`. -/
def presentAt (t : ℕ) (id : ℕ) (q : List Notification) : Bool :=
  (fireDue t q).any (fun n => decide (n.id = id))

/-- Membership after folding `removeNotification` over a list of ids:
a notification survives exactly when its id is named by none of them. -/
lemma mem_foldl_removeNotification (ids : List ℕ) (q : List Notification)
    (n : Notification) :
    n ∈ ids.foldl (fun acc id => removeNotification id acc) q ↔
      n ∈ q ∧ n.id ∉ ids := by
  induction ids generalizing q with
  | nil => simp
  | cons i is ih =>
    simp only [List.foldl_cons]
    rw [ih]
    simp only [removeNotification, List.mem_filter, decide_eq_true_eq,
      List.mem_cons]
    tauto

/-- C8: a notification pushed at time T is scheduled for removal after
exactly 5 time units (the 5000 ms timer of App.tsx lines 462-464, with one
unit = 1000 ms); it is still in the queue at T+4 units and gone at T+6
units. The hypothesis states the queue invariant maintained by
`addNotification`: every notification's id is its creation timestamp. -/
theorem C8_notification_expires_after_5_units (T : ℕ) (ty : NotifType)
    (msg : String) (q : List Notification)
    (hq : ∀ n ∈ q, n.timestamp = n.id) :
    removalDelayMs = 5 * msPerUnit ∧
    presentAt (T + 4 * msPerUnit) T (addNotificationAt T ty msg q) = true ∧
    presentAt (T + 6 * msPerUnit) T (addNotificationAt T ty msg q) = false := by
  refine ⟨rfl, ?_, ?_⟩
  · simp only [presentAt, List.any_eq_true, decide_eq_true_eq]
    refine ⟨mkNotification T ty msg, ?_, rfl⟩
    rw [fireDue, mem_foldl_removeNotification]
    constructor
    · simp [addNotificationAt]
    · intro hmem
      simp only [dueIds, List.mem_map, List.mem_filter, decide_eq_true_eq] at hmem
      obtain ⟨m, ⟨hm, hsched⟩, hid⟩ := hmem
      simp only [addNotificationAt, List.mem_append, List.mem_singleton] at hm
      simp only [scheduledRemovalTime, removalDelayMs, msPerUnit] at hsched
      simp only [mkNotification] at hid
      rcases hm with hm | hm
      · have ht := hq m hm
        omega
      · subst hm
        simp only [mkNotification] at hsched
        omega
  · simp only [presentAt]
    rw [List.any_eq_false]
    intro n hn
    simp only [decide_eq_true_eq]
    intro hid
    rw [fireDue, mem_foldl_removeNotification] at hn
    obtain ⟨hmem, hnot⟩ := hn
    apply hnot
    simp only [dueIds, List.mem_map, List.mem_filter, decide_eq_true_eq]
    refine ⟨mkNotification T ty msg, ⟨?_, ?_⟩, ?_⟩
    · simp [addNotificationAt]
    · simp only [scheduledRemovalTime, mkNotification, removalDelayMs, msPerUnit]
      omega
    · simpa [mkNotification] using hid.symm

/-- C8 witness: the expiry behavior at the concrete instant T = 0 on the
empty queue. -/
theorem C8_notification_expires_after_5_units_witness :
    removalDelayMs = 5 * msPerUnit ∧
    presentAt (0 + 4 * msPerUnit) 0 (addNotificationAt 0 NotifType.success "m" []) = true ∧
    presentAt (0 + 6 * msPerUnit) 0 (addNotificationAt 0 NotifType.success "m" []) = false :=
  C8_notification_expires_after_5_units 0 NotifType.success "m" []
    (fun n hn => absurd hn (List.not_mem_nil n))

/-- C1 (amended): for every employer the fee is
`min(flat + amount × percentage, max)`; for `amount > 0` and
`percentage ≥ 0` the result is ≤ `max`, and ≥ `flat` provided additionally
`flat ≤ max`; for the structure `{flat: 25, percentage: 0.01, max: 60}` and
amount 500 the fee is 30. -/
theorem C1_fee_formula_and_bounds (e : Employer) (amt : ℚ)
    (hpos : 0 < amt) (hperc : 0 ≤ e.feeStructure.percentage) :
    calculateFee (some e) amt
      = min (e.feeStructure.flat + amt * e.feeStructure.percentage)
          e.feeStructure.max ∧
    calculateFee (some e) amt ≤ e.feeStructure.max ∧
    (e.feeStructure.flat ≤ e.feeStructure.max →
      e.feeStructure.flat ≤ calculateFee (some e) amt) ∧
    calculateFee (some mockTech) 500 = 30 := by
  refine ⟨rfl, min_le_right _ _, fun hfm => le_min ?_ hfm,
    by norm_num [calculateFee, mockTech]⟩
  have hnn : 0 ≤ amt * e.feeStructure.percentage := mul_nonneg hpos.le hperc
  linarith

/-- C1 witness: the bounds and the concrete fee at employer `TECH001`
with amount 500. -/
theorem C1_fee_formula_and_bounds_witness :
    calculateFee (some mockTech) 500 ≤ mockTech.feeStructure.max ∧
    mockTech.feeStructure.flat ≤ calculateFee (some mockTech) 500 ∧
    calculateFee (some mockTech) 500 = 30 := by
  obtain ⟨-, h1, h2, h3⟩ :=
    C1_fee_formula_and_bounds mockTech 500 (by norm_num) (by norm_num [mockTech])
  exact ⟨h1, h2 (by norm_num [mockTech]), h3⟩

/-- C1 counterexample: with `flat = 100 > max = 50` and amount 1 the fee is
50, strictly below `flat`, so the claimed lower bound `fee ≥ flat` fails
even though the amount is positive and the percentage non-negative. -/
theorem C1_flat_above_max_cex :
    calculateFee
        (some { mockTech with
                feeStructure := { flat := 100, percentage := 0, max := 50 } }) 1
      = 50 ∧
    ¬ ((100 : ℚ) ≤
        calculateFee
          (some { mockTech with
                  feeStructure := { flat := 100, percentage := 0, max := 50 } }) 1) := by
  constructor
  · norm_num [calculateFee]
  · norm_num [calculateFee]

/-- C2: the code contains no ceiling check at all. With user Thabo
(hourly rate 150, biometrics on), employer `TECH001` (cap 0.25) and 10
elapsed days the advanceable ceiling is 3000, yet a request of 5000 is
submittable (the button is enabled), submission opens the step-up modal,
the scan always succeeds, and the resulting `processAdvance` emits a
success notification approving 5000 with fee 60 — no `AmountExceedsCeiling`
error exists anywhere on the path. -/
theorem C2_ceiling_never_checked :
    available (some thabo) (some mockTech) 0 (10 * 86400000) = 3000 ∧
    submitDisabled { amount := some 5000, paymentMethod := PaymentMethod.instant,
                     showBiometric := false } = false ∧
    handleSubmit (some thabo) (some mockTech) 5000
        { amount := some 5000, paymentMethod := PaymentMethod.instant,
          showBiometric := false }
      = ({ amount := some 5000, paymentMethod := PaymentMethod.instant,
           showBiometric := true }, []) ∧
    bioOutcome BioAction.pressScan = StepUpOutcome.success ∧
    biometricOnSuccess (some mockTech) 5000
        { amount := some 5000, paymentMethod := PaymentMethod.instant,
          showBiometric := true }
      = ({ amount := none, paymentMethod := PaymentMethod.instant,
           showBiometric := false },
         [⟨NotifType.success, 5000, 60⟩]) := by
  refine ⟨?_, rfl, ?_, rfl, ?_⟩
  · norm_num [available, calculateEarnedToDate, thabo, workingDays, msPerDay,
      advanceCapOrDefault, mockTech, Int.fdiv]
  · simp [handleSubmit, biometricGate, thabo]
  · simp only [biometricOnSuccess, processAdvance]
    norm_num [calculateFee, mockTech]

/-- C3 (amended): earned-to-date is
`floor((now - startOfMonth) / msPerDay) × 8 × hourlyRate`, and the available
ceiling is `earnedToDate × advanceCap` whenever `advanceCap ≠ 0` (for
`advanceCap = 0`, and for a missing employer, the code substitutes the 0.25
default); with hourly rate 150, 10 elapsed days and cap 0.25 this gives
12000 and 3000. -/
theorem C3_earned_and_ceiling (u : User) (e : Employer) (som now : ℤ)
    (h : e.advanceCap ≠ 0) :
    calculateEarnedToDate (some u) som now
      = ((Int.fdiv (now - som) msPerDay : ℤ) : ℚ) * 8 * u.hourlyRate ∧
    available (some u) (some e) som now
      = calculateEarnedToDate (some u) som now * e.advanceCap ∧
    calculateEarnedToDate (some thabo) 0 (10 * 86400000) = 12000 ∧
    available (some thabo) (some mockTech) 0 (10 * 86400000) = 3000 := by
  refine ⟨rfl, ?_, ?_, ?_⟩
  · simp [available, advanceCapOrDefault, h]
  · norm_num [calculateEarnedToDate, thabo, workingDays, msPerDay, Int.fdiv]
  · norm_num [available, calculateEarnedToDate, thabo, workingDays, msPerDay,
      advanceCapOrDefault, mockTech, Int.fdiv]

/-- C3 witness: the amended statement at Thabo, `TECH001`, period start 0
and `now` ten days later. -/
theorem C3_earned_and_ceiling_witness :
    calculateEarnedToDate (some thabo) 0 (10 * 86400000)
      = ((Int.fdiv ((10 * 86400000 : ℤ) - 0) msPerDay : ℤ) : ℚ) * 8 * thabo.hourlyRate ∧
    available (some thabo) (some mockTech) 0 (10 * 86400000)
      = calculateEarnedToDate (some thabo) 0 (10 * 86400000) * mockTech.advanceCap ∧
    calculateEarnedToDate (some thabo) 0 (10 * 86400000) = 12000 ∧
    available (some thabo) (some mockTech) 0 (10 * 86400000) = 3000 :=
  C3_earned_and_ceiling thabo mockTech 0 (10 * 86400000) (by norm_num [mockTech])

/-- C3 counterexample: with an employer whose `advanceCap` is 0 the code's
ceiling is 3000 (the `|| 0.25` fallback of line 697 treats 0 as falsy),
whereas `earnedToDate × advanceCap` is 0. -/
theorem C3_cap_zero_fallback_cex :
    available (some thabo) (some { mockTech with advanceCap := 0 }) 0 (10 * 86400000)
      = 3000 ∧
    calculateEarnedToDate (some thabo) 0 (10 * 86400000)
        * ({ mockTech with advanceCap := 0 } : Employer).advanceCap = 0 ∧
    (3000 : ℚ) ≠ 0 := by
  refine ⟨?_, ?_, by norm_num⟩
  · norm_num [available, calculateEarnedToDate, thabo, workingDays, msPerDay,
      advanceCapOrDefault, mockTech, Int.fdiv]
  · norm_num

/-- C4 (amended): there is no `InvalidAmount` error; for every amount ≤ 0
`calculateFee` still returns the numeric value
`min(flat + amount × percentage, max)`, and the guard against non-positive
amounts lives solely in the Request Advance button, which is disabled for an
empty or non-positive amount. -/
theorem C4_fee_total_guard_at_button (e : Employer) (amt : ℚ)
    (pm : PaymentMethod) (sb : Bool) (h : amt ≤ 0) :
    calculateFee (some e) amt
      = min (e.feeStructure.flat + amt * e.feeStructure.percentage)
          e.feeStructure.max ∧
    submitDisabled { amount := some amt, paymentMethod := pm,
                     showBiometric := sb } = true ∧
    submitDisabled { amount := none, paymentMethod := pm,
                     showBiometric := sb } = true := by
  refine ⟨rfl, ?_, rfl⟩
  simp [submitDisabled, h]

/-- C4 witness: the amended statement at employer `TECH001` and amount 0. -/
theorem C4_fee_total_guard_at_button_witness :
    calculateFee (some mockTech) 0
      = min (mockTech.feeStructure.flat + 0 * mockTech.feeStructure.percentage)
          mockTech.feeStructure.max ∧
    submitDisabled { amount := some 0, paymentMethod := PaymentMethod.instant,
                     showBiometric := false } = true ∧
    submitDisabled { amount := none, paymentMethod := PaymentMethod.instant,
                     showBiometric := false } = true :=
  C4_fee_total_guard_at_button mockTech 0 PaymentMethod.instant false le_rfl

/-- C4 counterexample: at amount 0 the fee computation returns the clamped
flat fee 25 — a numeric result, not an error — and at amount -100 it
returns 24; the claim says both must fail with `InvalidAmount`. -/
theorem C4_nonpositive_amount_cex :
    calculateFee (some mockTech) 0 = 25 ∧
    calculateFee (some mockTech) (-100) = 24 ∧
    mockTech.feeStructure.flat = 25 := by
  refine ⟨?_, ?_, rfl⟩ <;> norm_num [calculateFee, mockTech]

/-- C5: `handleSubmit` routes on `user.biometricEnabled` alone — when it is
true the step-up modal is shown and nothing is emitted (no approval yet);
when it is false `processAdvance` runs immediately, emitting the success
notification and clearing the amount, without the step-up factor. -/
theorem C5_biometric_gate_routing (u : User) (e : Option Employer) (a : ℚ)
    (s : AdvanceState) :
    (u.biometricEnabled = true →
      handleSubmit (some u) e a s = ({ s with showBiometric := true }, [])) ∧
    (u.biometricEnabled = false →
      handleSubmit (some u) e a s
        = ({ s with amount := none },
           [⟨NotifType.success, a, calculateFee e a⟩])) := by
  constructor
  · intro h
    simp [handleSubmit, biometricGate, h]
  · intro h
    simp [handleSubmit, biometricGate, h, processAdvance]

/-- C5 witness: Thabo (biometrics on) is routed to the step-up modal;
Sarah (biometrics off) is approved directly. -/
theorem C5_biometric_gate_routing_witness :
    handleSubmit (some thabo) (some mockTech) 500
        { amount := some 500, paymentMethod := PaymentMethod.instant,
          showBiometric := false }
      = ({ amount := some 500, paymentMethod := PaymentMethod.instant,
           showBiometric := true }, []) ∧
    handleSubmit (some sarah) (some mockTech) 500
        { amount := some 500, paymentMethod := PaymentMethod.eft,
          showBiometric := false }
      = ({ amount := none, paymentMethod := PaymentMethod.eft,
           showBiometric := false },
         [⟨NotifType.success, 500, calculateFee (some mockTech) 500⟩]) := by
  constructor
  · exact (C5_biometric_gate_routing thabo (some mockTech) 500 _).1 rfl
  · exact (C5_biometric_gate_routing sarah (some mockTech) 500 _).2 rfl

/-- C6: cancelling the step-up modal only hides it — the candidate amount
and payment method are preserved, the workflow is back in its draft state,
and the cancellation emits nothing (no notification, no approval, no
transaction). -/
theorem C6_cancel_restores_draft (s : AdvanceState) :
    (biometricOnCancel s).1.amount = s.amount ∧
    (biometricOnCancel s).1.paymentMethod = s.paymentMethod ∧
    (biometricOnCancel s).1.showBiometric = false ∧
    (biometricOnCancel s).2 = [] :=
  ⟨rfl, rfl, rfl, rfl⟩

/-- C7: `handlePurchase` performs no stock check and no stock decrement —
for every voucher, including one with stock 0, it emits the same success
notification, and the voucher record is untouched (the handler neither
reads nor writes `stock` and records no transaction). -/
theorem C7_purchase_ignores_stock :
    (∀ v : Voucher, handlePurchase v = [(NotifType.success, v.name)]) ∧
    handlePurchase { mockR50Airtime with stock := 1 }
      = [(NotifType.success, "R50 Airtime")] ∧
    handlePurchase { mockR50Airtime with stock := 0 }
      = [(NotifType.success, "R50 Airtime")] ∧
    ({ mockR50Airtime with stock := 0 } : Voucher).stock = 0 :=
  ⟨fun _ => rfl, rfl, rfl, rfl⟩

/-- C9 (amended): the id assigned at creation time `t` is `t` itself, so
notifications created at distinct instants have distinct ids, and a
notification created later never has a smaller id; two notifications
created within the same millisecond, however, share an id. -/
theorem C9_ids_from_timestamps (t1 t2 : ℕ) (ty1 ty2 : NotifType)
    (m1 m2 : String) :
    (mkNotification t1 ty1 m1).id = t1 ∧
    (t1 ≠ t2 →
      (mkNotification t1 ty1 m1).id ≠ (mkNotification t2 ty2 m2).id) ∧
    (t1 ≤ t2 →
      (mkNotification t1 ty1 m1).id ≤ (mkNotification t2 ty2 m2).id) :=
  ⟨rfl, fun h => h, fun h => h⟩

/-- C9 witness: distinct creation instants 1 and 2 give distinct, ordered
ids. -/
theorem C9_ids_from_timestamps_witness :
    (mkNotification 1 NotifType.info "x").id = 1 ∧
    (mkNotification 1 NotifType.info "x").id ≠ (mkNotification 2 NotifType.info "y").id ∧
    (mkNotification 1 NotifType.info "x").id ≤ (mkNotification 2 NotifType.info "y").id := by
  obtain ⟨h1, h2, h3⟩ := C9_ids_from_timestamps 1 2 NotifType.info NotifType.info "x" "y"
  exact ⟨h1, h2 (by decide), h3 (by decide)⟩

/-- C9 counterexample: two distinct notifications pushed within the same
millisecond (`Date.now()` = 100) receive the same id, so id uniqueness over
all pushed notifications fails. -/
theorem C9_same_ms_collision_cex :
    (mkNotification 100 NotifType.success "a").id
      = (mkNotification 100 NotifType.error "b").id ∧
    mkNotification 100 NotifType.success "a" ≠ mkNotification 100 NotifType.error "b" ∧
    addNotificationAt 100 NotifType.error "b"
        (addNotificationAt 100 NotifType.success "a" [])
      = [mkNotification 100 NotifType.success "a",
         mkNotification 100 NotifType.error "b"] :=
  ⟨rfl, by decide, rfl⟩

/-- C10: every action available in the step-up modal resolves to success or
cancellation — the scan button always invokes the success continuation, so
the spec's step-up-rejection (`failed`) outcome is unreachable. -/
theorem C10_stepup_never_fails :
    (∀ a : BioAction,
      bioOutcome a = StepUpOutcome.success ∨ bioOutcome a = StepUpOutcome.cancelled) ∧
    bioOutcome BioAction.pressScan = StepUpOutcome.success ∧
    bioOutcome BioAction.pressCancel = StepUpOutcome.cancelled := by
  refine ⟨fun a => ?_, rfl, rfl⟩
  cases a
  · exact Or.inl rfl
  · exact Or.inr rfl

end PayQuick
